import Mathlib

/-! # kiam: the metadata credentials handler


A shallow embedding of `credentialsHandler.Handle` from
`pkg/aws/metadata/handler_credentials.go`, followed by theorems about it.

The handler is a straight-line pipeline.  Everything it touches is passed
explicitly: the response writer, the metrics registry, the request, the
context, and the results of the collaborators it calls.  A Go run-time abort
(calling a method on a nil interface value) is a separate result, so that
"returns a value" and "aborts" are told apart.
-/

set_option autoImplicit false

namespace Kiam

/-! ## Values -/

/-- Go `error` values.  `EmptyRoleError` is the package-level sentinel that
`Handle` returns by identity; every other error carries its text. -/
inductive GoError where
  | EmptyRoleError
  | other (text : String)
deriving DecidableEq, Repr

/-- Modelled from the spec: the declaration of `EmptyRoleError` is in another
file of the package; the spec gives its text as the fixed "empty role" message.
For every other error the method returns the carried text. -/
def GoError.Error : GoError → String
  | .EmptyRoleError => "empty role"
  | .other text => text

/-- The value of `fmt.Errorf` once its format string has been filled in. -/
def Errorf (text : String) : GoError := .other text

/-- Constant `http.StatusOK`. -/
def StatusOK : Nat := 200
/-- Constant `http.StatusBadRequest`. -/
def StatusBadRequest : Nat := 400
/-- Constant `http.StatusForbidden`. -/
def StatusForbidden : Nat := 403
/-- Constant `http.StatusNotFound`. -/
def StatusNotFound : Nat := 404
/-- Constant `http.StatusInternalServerError`. -/
def StatusInternalServerError : Nat := 500

/-- Modelled from the spec: `sts.Credentials` is declared in another package;
the spec lists an access key identifier, a secret key, a session token, an
expiration timestamp and a type/code discriminator. -/
structure Credentials where
  Code : String
  Type_ : String
  AccessKeyId : String
  SecretAccessKey : String
  Token : String
  Expiration : String
deriving DecidableEq, Repr

/-- The `context.Context` as the handler sees it: `Err` is what `ctx.Err()`
returns, `none` (Go `nil`) while the context is not done. -/
structure Context where
  Err : Option GoError
deriving DecidableEq, Repr

/-- The parts of `*http.Request` the handler reads: the result of
`req.ParseForm()` (`none` is a nil error) and the route variables
`mux.Vars(req)`. -/
structure Request where
  ParseForm : Option GoError
  Vars : List (String × String)
deriving DecidableEq, Repr

/-- Reading a Go map: an absent key reads as the zero value, the empty string. -/
def mapIndex (m : List (String × String)) (key : String) : String :=
  (m.lookup key).getD ""

/-! ## Mutable surroundings -/

/-- The `http.ResponseWriter`: the bytes written so far, the header map
`w.Header()`, how the next `Write` behaves (`fault = some (n, e)`: only the
first `n` bytes are taken and `e` is returned), and the header block the
response has been committed with (`sent`, `none` until the first `Write`).
When the map holds no Content-Type at that moment the writer picks one from the
data with `sniff` (`http.DetectContentType` for a net/http server). -/
structure ResponseWriter where
  body : String
  header : List (String × String)
  fault : Option (Nat × GoError)
  sent : Option (List (String × String))
  sniff : String → String

/-- The header block the response carries once `b` is written: the block already
committed, or else the header map as it is now, with a sniffed Content-Type when
the map has none. -/
def ResponseWriter.commit (w : ResponseWriter) (b : String) : List (String × String) :=
  match w.sent with
  | some block => block
  | none =>
    match w.header.lookup "Content-Type" with
    | some _ => w.header
    | none => ("Content-Type", w.sniff b) :: w.header

/-- Method `w.Write(b)`: a first write commits the header block (the implicit
`WriteHeader(http.StatusOK)`) before any byte is taken. -/
def ResponseWriter.Write (w : ResponseWriter) (b : String) : ResponseWriter × Option GoError :=
  match w.fault with
  | none => ({ w with body := w.body ++ b, sent := some (w.commit b) }, none)
  | some (n, e) =>
    ({ w with body := w.body ++ String.mk (b.data.take n), sent := some (w.commit b) }, some e)

/-- Method `w.Header().Set(key, value)`: the key's previous values are replaced
in the header map.  A block that is already committed is not touched: changing
the map after a write has no effect on the response. -/
def ResponseWriter.HeaderSet (w : ResponseWriter) (key value : String) : ResponseWriter :=
  { w with header := (key, value) :: w.header.filter (fun kv => kv.1 ≠ key) }

/-- Method `w.Header().Get(key)`: a read of the header map. -/
def ResponseWriter.HeaderGet (w : ResponseWriter) (key : String) : String :=
  mapIndex w.header key

/-- The value the response itself carries for `key`: read from the committed
block, empty while nothing is committed. -/
def ResponseWriter.SentHeader (w : ResponseWriter) (key : String) : String :=
  match w.sent with
  | none => ""
  | some block => mapIndex block key

/-- The `metrics.DefaultRegistry`: meter counts and timer samples by name. -/
structure Registry where
  meters : String → Nat
  timers : String → List Nat

/-- The call `metrics.GetOrRegisterMeter(name, metrics.DefaultRegistry).Mark(1)`. -/
def Registry.Mark (r : Registry) (name : String) : Registry :=
  { r with meters := fun n => if n = name then r.meters n + 1 else r.meters n }

/-- The call `timer.UpdateSince(startTime)` on the timer registered under `name`. -/
def Registry.UpdateSince (r : Registry) (name : String) (startTime now : Nat) : Registry :=
  { r with timers := fun n => if n = name then r.timers n ++ [now - startTime] else r.timers n }

/-- What one invocation does, in order. -/
inductive Event where
  | parseForm
  | clientIP
  | findRole (ip : String)
  | mark (name : String)
  | credentialsForRole (role : String)
  | encode
  | write (bytes : String)
  | setHeader (key value : String)
  | updateSince (name : String)
deriving DecidableEq, Repr

/-- How an invocation ends: it returns `(status, err)`, or the Go run time
aborts it (nil dereference). -/
inductive Result where
  | returned (status : Nat) (err : Option GoError)
  | panicked
deriving DecidableEq, Repr

/-- The handler struct.  The package helpers `findRole(ctx, c.roleFinder, ip)`
and `credentialsForRole(ctx, c.credentialsProvider, role)` are declared in
other files; the fields stand for these calls with the finder and the provider
already supplied. -/
structure credentialsHandler where
  roleFinder : Context → String → Except GoError String
  credentialsProvider : Context → String → Except GoError Credentials
  clientIP : Request → Except GoError String

/-- What lies outside the package: the bytes `encoding/json` produces for a
value (or its marshalling error), and the two clock readings, `time.Now()` at
entry and the reading taken by the deferred `UpdateSince`. -/
structure Env where
  jsonMarshal : Credentials → Except GoError String
  startTime : Nat
  endTime : Nat

/-- The call `json.NewEncoder(w).Encode(v)`: marshal, then hand all the bytes to
`w.Write` once; a marshalling error leaves `w` alone. -/
def Encode (env : Env) (w : ResponseWriter) (v : Credentials) : ResponseWriter × Option GoError × List Event :=
  match env.jsonMarshal v with
  | .error e => (w, some e, [.encode])
  | .ok b => ((w.Write b).1, (w.Write b).2, [.encode, .write b])

/-- Everything observable after an invocation. -/
structure Outcome where
  result : Result
  w : ResponseWriter
  registry : Registry
  trace : List Event

/-! ## The handler -/

/-- The body of `Handle` after the deferred timer update has been set up. -/
def handleBody (env : Env) (c : credentialsHandler) (ctx : Context) (w : ResponseWriter)
    (req : Request) (reg : Registry) : Outcome :=
  match req.ParseForm with
  | some err => ⟨.returned StatusInternalServerError (some err), w, reg, [.parseForm]⟩
  | none =>
  match c.clientIP req with
  | .error err => ⟨.returned StatusInternalServerError (some err), w, reg, [.parseForm, .clientIP]⟩
  | .ok ip =>
  match c.roleFinder ctx ip with
  | .error err =>
    ⟨.returned StatusInternalServerError
        (some (Errorf ("error finding pod for ip " ++ ip ++ ": " ++ err.Error))),
      w, reg.Mark "credentialsHandler.findRoleError",
      [.parseForm, .clientIP, .findRole ip, .mark "credentialsHandler.findRoleError"]⟩
  | .ok foundRole =>
  if foundRole = "" then
    ⟨.returned StatusNotFound (some .EmptyRoleError), w, reg.Mark "credentialsHandler.emptyRole",
      [.parseForm, .clientIP, .findRole ip, .mark "credentialsHandler.emptyRole"]⟩
  else
  let requestedRole := mapIndex req.Vars "role"
  if requestedRole = "" then
    ⟨.returned StatusBadRequest (some (Errorf "no role specified")), w, reg,
      [.parseForm, .clientIP, .findRole ip]⟩
  else
  if foundRole ≠ requestedRole then
    ⟨.returned StatusForbidden
        (some (Errorf ("unable to assume role " ++ requestedRole
          ++ ", role on pod specified is " ++ foundRole))),
      w, reg, [.parseForm, .clientIP, .findRole ip]⟩
  else
  match c.credentialsProvider ctx requestedRole with
  | .error _ =>
    match ctx.Err with
    | none =>
      ⟨.panicked, w, reg, [.parseForm, .clientIP, .findRole ip, .credentialsForRole requestedRole]⟩
    | some ctxErr =>
      ⟨.returned StatusInternalServerError (some (Errorf ("unexpected error: " ++ ctxErr.Error))),
        w, reg, [.parseForm, .clientIP, .findRole ip, .credentialsForRole requestedRole]⟩
  | .ok credentials =>
  match Encode env w credentials with
  | (w1, some err, evs) =>
    ⟨.returned StatusInternalServerError
        (some (Errorf ("error encoding credentials: " ++ err.Error))),
      w1, reg, [.parseForm, .clientIP, .findRole ip, .credentialsForRole requestedRole] ++ evs⟩
  | (w1, none, evs) =>
    ⟨.returned StatusOK none, w1.HeaderSet "Content-Type" "application/json",
      reg.Mark "credentialsHandler.success",
      [.parseForm, .clientIP, .findRole ip, .credentialsForRole requestedRole] ++ evs
        ++ [.setHeader "Content-Type" "application/json", .mark "credentialsHandler.success"]⟩

/-- Method `credentialsHandler.Handle`: the deferred
`credentialTimings.UpdateSince(startTime)` runs on every exit of the body, an
abort included. -/
def credentialsHandler.Handle (c : credentialsHandler) (env : Env) (ctx : Context)
    (w : ResponseWriter) (req : Request) (reg : Registry) : Outcome :=
  let out := handleBody env c ctx w req reg
  { out with
    registry := out.registry.UpdateSince "credentialsHandler" env.startTime env.endTime
    trace := out.trace ++ [.updateSince "credentialsHandler"] }

/-! ## Observations on an outcome -/

/-- The roles credential retrieval was invoked with, in order. -/
def fetchedRoles : List Event → List String
  | [] => []
  | .credentialsForRole role :: rest => role :: fetchedRoles rest
  | _ :: rest => fetchedRoles rest

/-- The meter names marked, in order. -/
def markedMeters : List Event → List String
  | [] => []
  | .mark name :: rest => name :: markedMeters rest
  | _ :: rest => markedMeters rest

/-- The byte strings handed to the response writer, in order. -/
def writtenBytes : List Event → List String
  | [] => []
  | .write b :: rest => b :: writtenBytes rest
  | _ :: rest => writtenBytes rest

/-- The three meters of the handler, by the names it registers them under. -/
def meterNames : List String :=
  ["credentialsHandler.success", "credentialsHandler.emptyRole", "credentialsHandler.findRoleError"]

/-- The meters among `meterNames` whose count differs between two registries. -/
def changedMeters (before after : Registry) : List String :=
  meterNames.filter (fun n => after.meters n ≠ before.meters n)

/-- Text `s` occurs verbatim inside `t`. -/
def Contains (t s : String) : Prop := ∃ pre post : String, t = pre ++ s ++ post

/-! ## Sample inputs -/

/-- A registry with every meter at zero and no timer samples. -/
def emptyRegistry : Registry := ⟨fun _ => 0, fun _ => []⟩

/-- What `http.DetectContentType` answers for text such as a JSON document. -/
def sniffText (_ : String) : String := "text/plain; charset=utf-8"

/-- A fresh response writer whose writes succeed. -/
def freshWriter : ResponseWriter := ⟨"", [], none, none, sniffText⟩

/-- A request routed with the given role variable, whose form parses. -/
def requestFor (role : String) : Request := ⟨none, [("role", role)]⟩

/-- Sample credentials. -/
def sampleCredentials : Credentials :=
  ⟨"Success", "AWS-HMAC", "AKIA", "secret", "token", "2030-01-01T00:00:00Z"⟩

/-- A stand-in for the JSON encoder, enough to tell values apart. -/
def sampleMarshal (v : Credentials) : Except GoError String :=
  .ok ("\x7b\"AccessKeyId\":\"" ++ v.AccessKeyId ++ "\"\x7d\n")

/-- Sample surroundings. -/
def sampleEnv : Env := ⟨sampleMarshal, 10, 25⟩

/-- A handler whose every caller is 10.0.0.5 with permitted role `permitted`
and whose provider answers `fetch`. -/
def handlerWith (permitted : Except GoError String) (fetch : Except GoError Credentials) :
    credentialsHandler :=
  ⟨fun _ _ => permitted, fun _ _ => fetch, fun _ => .ok "10.0.0.5"⟩

/-- A context that is not done. -/
def liveContext : Context := ⟨none⟩

/-- A cancelled context. -/
def cancelledContext : Context := ⟨some (.other "context canceled")⟩

/-- A response writer whose connection breaks after five more bytes. -/
def brokenWriter : ResponseWriter :=
  ⟨"", [], some (5, .other "write: broken pipe"), none, sniffText⟩

/-! ## Shared lemmas -/

theorem fetchedRoles_append (xs ys : List Event) :
    fetchedRoles (xs ++ ys) = fetchedRoles xs ++ fetchedRoles ys := by
  induction xs with
  | nil => rfl
  | cons x xs ih => cases x <;> simp [fetchedRoles, ih]

theorem markedMeters_append (xs ys : List Event) :
    markedMeters (xs ++ ys) = markedMeters xs ++ markedMeters ys := by
  induction xs with
  | nil => rfl
  | cons x xs ih => cases x <;> simp [markedMeters, ih]

theorem writtenBytes_append (xs ys : List Event) :
    writtenBytes (xs ++ ys) = writtenBytes xs ++ writtenBytes ys := by
  induction xs with
  | nil => rfl
  | cons x xs ih => cases x <;> simp [writtenBytes, ih]

/-- The deferred timer update changes neither the result, the writer nor the meters. -/
theorem Handle_result (c : credentialsHandler) (env : Env) (ctx : Context) (w : ResponseWriter)
    (req : Request) (reg : Registry) :
    (c.Handle env ctx w req reg).result = (handleBody env c ctx w req reg).result := rfl

theorem Handle_w (c : credentialsHandler) (env : Env) (ctx : Context) (w : ResponseWriter)
    (req : Request) (reg : Registry) :
    (c.Handle env ctx w req reg).w = (handleBody env c ctx w req reg).w := rfl

theorem Handle_meters (c : credentialsHandler) (env : Env) (ctx : Context) (w : ResponseWriter)
    (req : Request) (reg : Registry) :
    (c.Handle env ctx w req reg).registry.meters = (handleBody env c ctx w req reg).registry.meters :=
  rfl

theorem Handle_fetchedRoles (c : credentialsHandler) (env : Env) (ctx : Context)
    (w : ResponseWriter) (req : Request) (reg : Registry) :
    fetchedRoles (c.Handle env ctx w req reg).trace
      = fetchedRoles (handleBody env c ctx w req reg).trace := by
  simp [credentialsHandler.Handle, fetchedRoles_append, fetchedRoles]

theorem Handle_markedMeters (c : credentialsHandler) (env : Env) (ctx : Context)
    (w : ResponseWriter) (req : Request) (reg : Registry) :
    markedMeters (c.Handle env ctx w req reg).trace
      = markedMeters (handleBody env c ctx w req reg).trace := by
  simp [credentialsHandler.Handle, markedMeters_append, markedMeters]

theorem Handle_writtenBytes (c : credentialsHandler) (env : Env) (ctx : Context)
    (w : ResponseWriter) (req : Request) (reg : Registry) :
    writtenBytes (c.Handle env ctx w req reg).trace
      = writtenBytes (handleBody env c ctx w req reg).trace := by
  simp [credentialsHandler.Handle, writtenBytes_append, writtenBytes]

/-! ## The authorization decision -/

/-- C1: when form parsing, identity resolution and role lookup succeed, credential
retrieval is invoked if and only if the permitted role is non-empty and equal,
as a string, to the requested role; it is then invoked once, with that role;
and bytes are handed to the response writer exactly when, on top of that,
retrieval and marshalling succeed. -/
theorem Handle_fetches_iff_exact_match (c : credentialsHandler) (env : Env) (ctx : Context)
    (w : ResponseWriter) (req : Request) (reg : Registry) (ip found : String)
    (hparse : req.ParseForm = none) (hip : c.clientIP req = .ok ip)
    (hfind : c.roleFinder ctx ip = .ok found) :
    (fetchedRoles (c.Handle env ctx w req reg).trace ≠ []
        ↔ (found ≠ "" ∧ found = mapIndex req.Vars "role"))
    ∧ (fetchedRoles (c.Handle env ctx w req reg).trace = []
        ∨ fetchedRoles (c.Handle env ctx w req reg).trace = [found])
    ∧ (writtenBytes (c.Handle env ctx w req reg).trace ≠ []
        ↔ ((found ≠ "" ∧ found = mapIndex req.Vars "role")
            ∧ ∃ creds b, c.credentialsProvider ctx found = .ok creds
                ∧ env.jsonMarshal creds = .ok b))
    ∧ ((c.Handle env ctx w req reg).result = .returned StatusOK none
        → (found ≠ "" ∧ found = mapIndex req.Vars "role")) := by
  rw [Handle_fetchedRoles, Handle_writtenBytes, Handle_result]
  unfold handleBody
  simp only [hparse, hip, hfind]
  by_cases h1 : found = ""
  · simp [h1, fetchedRoles, writtenBytes, StatusOK, StatusNotFound]
  · by_cases h2 : mapIndex req.Vars "role" = ""
    · have h3 : ¬ found = mapIndex req.Vars "role" := by rw [h2]; exact h1
      simp [h1, h2, fetchedRoles, writtenBytes, StatusOK, StatusBadRequest]
    · by_cases h3 : found = mapIndex req.Vars "role"
      · rw [← h3] at h2 ⊢
        simp only [h1, if_false, ne_eq, not_true_eq_false]
        cases hc : c.credentialsProvider ctx found with
        | error e =>
          cases hctx : ctx.Err <;> simp [fetchedRoles, writtenBytes]
        | ok creds =>
          cases hm : env.jsonMarshal creds with
          | error e => simp [Encode, hm, fetchedRoles, writtenBytes, StatusOK,
              StatusInternalServerError]
          | ok b =>
            cases hw : (w.Write b).2 <;>
              simp [Encode, hm, hw, fetchedRoles, writtenBytes, fetchedRoles_append,
                writtenBytes_append]
      · simp [h1, h2, h3, fetchedRoles, writtenBytes, StatusOK, StatusForbidden]

/-- Witness for C1: the permitted role "billing-reader" is served when asked for by
that exact name. -/
theorem Handle_fetches_iff_exact_match_witness :
    (fetchedRoles ((handlerWith (.ok "billing-reader") (.ok sampleCredentials)).Handle sampleEnv
        liveContext freshWriter (requestFor "billing-reader") emptyRegistry).trace ≠ []
        ↔ ("billing-reader" ≠ "" ∧ "billing-reader" = mapIndex (requestFor "billing-reader").Vars "role"))
    ∧ fetchedRoles ((handlerWith (.ok "billing-reader") (.ok sampleCredentials)).Handle sampleEnv
        liveContext freshWriter (requestFor "billing-reader") emptyRegistry).trace
        = ["billing-reader"] :=
  ⟨(Handle_fetches_iff_exact_match (handlerWith (.ok "billing-reader") (.ok sampleCredentials))
      sampleEnv liveContext freshWriter (requestFor "billing-reader") emptyRegistry "10.0.0.5"
      "billing-reader" rfl rfl rfl).1, by decide⟩

/-- A permitted role that only begins like the requested one, differs from it in
letter case, or is a wildcard pattern, is not served. -/
theorem Handle_rejects_near_matches :
    fetchedRoles ((handlerWith (.ok "billing") (.ok sampleCredentials)).Handle sampleEnv
        liveContext freshWriter (requestFor "billing-reader") emptyRegistry).trace = []
    ∧ fetchedRoles ((handlerWith (.ok "Billing-Reader") (.ok sampleCredentials)).Handle sampleEnv
        liveContext freshWriter (requestFor "billing-reader") emptyRegistry).trace = []
    ∧ fetchedRoles ((handlerWith (.ok "*") (.ok sampleCredentials)).Handle sampleEnv
        liveContext freshWriter (requestFor "billing-reader") emptyRegistry).trace = [] := by
  decide

/-- C2, as stated, fails: with the requested role and the permitted role both
empty the handler answers 404 and marks the emptyRole meter, because the
permitted role is examined before the requested one. -/
theorem Handle_empty_request_empty_permitted_is_404 :
    ((handlerWith (.ok "") (.ok sampleCredentials)).Handle sampleEnv liveContext freshWriter
        (requestFor "") emptyRegistry).result = .returned StatusNotFound (some .EmptyRoleError)
    ∧ (¬ ∃ e, ((handlerWith (.ok "") (.ok sampleCredentials)).Handle sampleEnv liveContext
        freshWriter (requestFor "") emptyRegistry).result = .returned StatusBadRequest e)
    ∧ changedMeters emptyRegistry ((handlerWith (.ok "") (.ok sampleCredentials)).Handle sampleEnv
        liveContext freshWriter (requestFor "") emptyRegistry).registry
        = ["credentialsHandler.emptyRole"] := by
  refine ⟨by decide, ?_, by decide⟩
  rintro ⟨e, h⟩
  have h2 : ((handlerWith (.ok "") (.ok sampleCredentials)).Handle sampleEnv liveContext
      freshWriter (requestFor "") emptyRegistry).result
      = .returned StatusNotFound (some .EmptyRoleError) := by decide
  rw [h2] at h
  cases h

/-- C2 (amended): when the requested role is empty and the lookup succeeds with a
non-empty permitted role, the handler returns 400 "no role specified", whatever
that permitted role is; no meter is marked or changed and credentials are not
retrieved. -/
theorem Handle_empty_request_is_400 (c : credentialsHandler) (env : Env) (ctx : Context)
    (w : ResponseWriter) (req : Request) (reg : Registry) (ip found : String)
    (hparse : req.ParseForm = none) (hip : c.clientIP req = .ok ip)
    (hfind : c.roleFinder ctx ip = .ok found) (hfound : found ≠ "")
    (hreq : mapIndex req.Vars "role" = "") :
    (c.Handle env ctx w req reg).result
        = .returned StatusBadRequest (some (Errorf "no role specified"))
    ∧ markedMeters (c.Handle env ctx w req reg).trace = []
    ∧ (c.Handle env ctx w req reg).registry.meters = reg.meters
    ∧ fetchedRoles (c.Handle env ctx w req reg).trace = [] := by
  rw [Handle_fetchedRoles, Handle_markedMeters, Handle_result, Handle_meters]
  unfold handleBody
  simp [hparse, hip, hfind, hfound, hreq, fetchedRoles, markedMeters]

/-- Witness for C2 (amended): permitted role "billing-reader", no role requested. -/
theorem Handle_empty_request_is_400_witness :
    ((handlerWith (.ok "billing-reader") (.ok sampleCredentials)).Handle sampleEnv liveContext
        freshWriter (requestFor "") emptyRegistry).result
      = .returned StatusBadRequest (some (Errorf "no role specified")) :=
  (Handle_empty_request_is_400 (handlerWith (.ok "billing-reader") (.ok sampleCredentials))
    sampleEnv liveContext freshWriter (requestFor "") emptyRegistry "10.0.0.5" "billing-reader"
    rfl rfl rfl (by decide) (by decide)).1

/-! ## Credential retrieval failures -/

/-- C3: at an authorized request whose credential retrieval fails while the context
is not done, the handler does not return: `ctx.Err()` is nil and calling
`Error()` on it aborts.  No counter is marked and nothing is written. -/
theorem Handle_aborts_on_fetch_error_with_live_context :
    ((handlerWith (.ok "billing-reader") (.error (.other "Throttling: Rate exceeded"))).Handle
        sampleEnv liveContext freshWriter (requestFor "billing-reader") emptyRegistry).result
      = .panicked
    ∧ ¬ ∃ status err,
        ((handlerWith (.ok "billing-reader") (.error (.other "Throttling: Rate exceeded"))).Handle
          sampleEnv liveContext freshWriter (requestFor "billing-reader") emptyRegistry).result
        = .returned status err := by
  refine ⟨by decide, ?_⟩
  rintro ⟨status, err, h⟩
  have h2 : ((handlerWith (.ok "billing-reader")
      (.error (.other "Throttling: Rate exceeded"))).Handle sampleEnv liveContext freshWriter
      (requestFor "billing-reader") emptyRegistry).result = .panicked := by decide
  rw [h2] at h
  cases h

/-- C4: at an authorized request whose credential retrieval fails with an expired
token while the context is not done, the handler does not return status 500: it
aborts. -/
theorem Handle_fetch_error_with_live_context_is_not_500 :
    ¬ ∃ err, ((handlerWith (.ok "admin") (.error (.other "ExpiredToken"))).Handle sampleEnv
        liveContext freshWriter (requestFor "admin") emptyRegistry).result
      = .returned StatusInternalServerError (some err) := by
  rintro ⟨err, h⟩
  have h2 : ((handlerWith (.ok "admin") (.error (.other "ExpiredToken"))).Handle sampleEnv
      liveContext freshWriter (requestFor "admin") emptyRegistry).result = .panicked := by decide
  rw [h2] at h
  cases h

/-- Whenever credential retrieval fails at an authorized request and the context is
not done, the handler aborts. -/
theorem Handle_fetch_error_live_context (c : credentialsHandler) (env : Env) (ctx : Context)
    (w : ResponseWriter) (req : Request) (reg : Registry) (ip found : String) (e : GoError)
    (hparse : req.ParseForm = none) (hip : c.clientIP req = .ok ip)
    (hfind : c.roleFinder ctx ip = .ok found) (hfound : found ≠ "")
    (heq : found = mapIndex req.Vars "role")
    (hfetch : c.credentialsProvider ctx found = .error e) (hctx : ctx.Err = none) :
    (c.Handle env ctx w req reg).result = .panicked := by
  rw [Handle_result]
  unfold handleBody
  rw [← heq]
  simp [hparse, hip, hfind, hfound, hfetch, hctx]

/-- Whenever credential retrieval fails at an authorized request and the context is
done, the handler returns 500 with the context's error text, marks no meter and
leaves the response writer as it was. -/
theorem Handle_fetch_error_done_context (c : credentialsHandler) (env : Env) (ctx : Context)
    (w : ResponseWriter) (req : Request) (reg : Registry) (ip found : String)
    (e ctxErr : GoError)
    (hparse : req.ParseForm = none) (hip : c.clientIP req = .ok ip)
    (hfind : c.roleFinder ctx ip = .ok found) (hfound : found ≠ "")
    (heq : found = mapIndex req.Vars "role")
    (hfetch : c.credentialsProvider ctx found = .error e) (hctx : ctx.Err = some ctxErr) :
    (c.Handle env ctx w req reg).result
        = .returned StatusInternalServerError
            (some (Errorf ("unexpected error: " ++ ctxErr.Error)))
    ∧ markedMeters (c.Handle env ctx w req reg).trace = []
    ∧ (c.Handle env ctx w req reg).registry.meters = reg.meters
    ∧ (c.Handle env ctx w req reg).w = w := by
  rw [Handle_markedMeters, Handle_result, Handle_meters, Handle_w]
  unfold handleBody
  rw [← heq]
  simp [hparse, hip, hfind, hfound, hfetch, hctx, markedMeters]

/-! ## Rejections -/

/-- C5: when the role lookup succeeds with the empty string, then for every
requested role the handler returns 404 with the sentinel `EmptyRoleError`; the
emptyRole meter goes up by exactly 1, every other meter (success and
findRoleError among them) is unchanged, and credentials are not retrieved. -/
theorem Handle_empty_permitted_is_404 (c : credentialsHandler) (env : Env) (ctx : Context)
    (w : ResponseWriter) (req : Request) (reg : Registry) (ip : String)
    (hparse : req.ParseForm = none) (hip : c.clientIP req = .ok ip)
    (hfind : c.roleFinder ctx ip = .ok "") :
    (c.Handle env ctx w req reg).result = .returned StatusNotFound (some .EmptyRoleError)
    ∧ (c.Handle env ctx w req reg).registry.meters "credentialsHandler.emptyRole"
        = reg.meters "credentialsHandler.emptyRole" + 1
    ∧ (∀ n, n ≠ "credentialsHandler.emptyRole" →
        (c.Handle env ctx w req reg).registry.meters n = reg.meters n)
    ∧ markedMeters (c.Handle env ctx w req reg).trace = ["credentialsHandler.emptyRole"]
    ∧ fetchedRoles (c.Handle env ctx w req reg).trace = [] := by
  rw [Handle_fetchedRoles, Handle_markedMeters, Handle_result, Handle_meters]
  unfold handleBody
  simp only [hparse, hip, hfind, if_true]
  refine ⟨by simp, by simp [Registry.Mark], ?_, by simp [markedMeters],
    by simp [fetchedRoles]⟩
  intro n hn
  simp [Registry.Mark, hn]

/-- Witness for C5: an unmapped caller asking for "billing-reader". -/
theorem Handle_empty_permitted_is_404_witness :
    ((handlerWith (.ok "") (.ok sampleCredentials)).Handle sampleEnv liveContext freshWriter
        (requestFor "billing-reader") emptyRegistry).result
      = .returned StatusNotFound (some .EmptyRoleError) :=
  (Handle_empty_permitted_is_404 (handlerWith (.ok "") (.ok sampleCredentials)) sampleEnv
    liveContext freshWriter (requestFor "billing-reader") emptyRegistry "10.0.0.5" rfl rfl rfl).1

/-- C6: when the permitted and the requested role are both non-empty and differ,
the handler returns 403 with an error whose text contains the requested role and
the permitted role verbatim, and credentials are not retrieved. -/
theorem Handle_mismatch_is_403 (c : credentialsHandler) (env : Env) (ctx : Context)
    (w : ResponseWriter) (req : Request) (reg : Registry) (ip found : String)
    (hparse : req.ParseForm = none) (hip : c.clientIP req = .ok ip)
    (hfind : c.roleFinder ctx ip = .ok found) (hfound : found ≠ "")
    (hreq : mapIndex req.Vars "role" ≠ "") (hne : found ≠ mapIndex req.Vars "role") :
    (∃ e, (c.Handle env ctx w req reg).result = .returned StatusForbidden (some e)
        ∧ Contains e.Error (mapIndex req.Vars "role") ∧ Contains e.Error found)
    ∧ fetchedRoles (c.Handle env ctx w req reg).trace = [] := by
  rw [Handle_fetchedRoles, Handle_result]
  unfold handleBody
  simp only [hparse, hip, hfind, hfound, hreq, hne, if_false, ne_eq, not_false_eq_true, if_true]
  refine ⟨⟨_, rfl, ?_, ?_⟩, by simp [fetchedRoles]⟩
  · exact ⟨"unable to assume role ", ", role on pod specified is " ++ found, by
      simp [Errorf, GoError.Error, String.append_assoc]⟩
  · exact ⟨"unable to assume role " ++ mapIndex req.Vars "role" ++ ", role on pod specified is ",
      "", by simp [Errorf, GoError.Error]⟩

/-- Witness for C6: permitted "billing-reader", requested "admin". -/
theorem Handle_mismatch_is_403_witness :
    (∃ e, ((handlerWith (.ok "billing-reader") (.ok sampleCredentials)).Handle sampleEnv
        liveContext freshWriter (requestFor "admin") emptyRegistry).result
          = .returned StatusForbidden (some e)
        ∧ Contains e.Error (mapIndex (requestFor "admin").Vars "role")
        ∧ Contains e.Error "billing-reader")
    ∧ fetchedRoles ((handlerWith (.ok "billing-reader") (.ok sampleCredentials)).Handle sampleEnv
        liveContext freshWriter (requestFor "admin") emptyRegistry).trace = [] :=
  Handle_mismatch_is_403 (handlerWith (.ok "billing-reader") (.ok sampleCredentials)) sampleEnv
    liveContext freshWriter (requestFor "admin") emptyRegistry "10.0.0.5" "billing-reader"
    rfl rfl rfl (by decide) (by decide) (by decide)

/-! ## Success -/

/-- The served path: when the permitted role is non-empty and equals the requested
role, retrieval returns credentials, they marshal to `b` and the writer accepts
the bytes, the handler returns (200, nil); the body grows by exactly `b`, the
success meter goes up by exactly 1 and every other meter is unchanged.  The
response is committed by the body write, with the header block of that moment;
the header map reads application/json only afterwards. -/
theorem Handle_success (c : credentialsHandler) (env : Env) (ctx : Context)
    (w : ResponseWriter) (req : Request) (reg : Registry) (ip found : String)
    (creds : Credentials) (b : String)
    (hparse : req.ParseForm = none) (hip : c.clientIP req = .ok ip)
    (hfind : c.roleFinder ctx ip = .ok found) (hfound : found ≠ "")
    (heq : found = mapIndex req.Vars "role")
    (hfetch : c.credentialsProvider ctx found = .ok creds)
    (hmarshal : env.jsonMarshal creds = .ok b) (hwrite : w.fault = none) :
    (c.Handle env ctx w req reg).result = .returned StatusOK none
    ∧ (c.Handle env ctx w req reg).w.body = w.body ++ b
    ∧ writtenBytes (c.Handle env ctx w req reg).trace = [b]
    ∧ (c.Handle env ctx w req reg).w.HeaderGet "Content-Type" = "application/json"
    ∧ (c.Handle env ctx w req reg).w.sent = some (w.commit b)
    ∧ (c.Handle env ctx w req reg).registry.meters "credentialsHandler.success"
        = reg.meters "credentialsHandler.success" + 1
    ∧ (∀ n, n ≠ "credentialsHandler.success" →
        (c.Handle env ctx w req reg).registry.meters n = reg.meters n)
    ∧ markedMeters (c.Handle env ctx w req reg).trace = ["credentialsHandler.success"] := by
  rw [Handle_writtenBytes, Handle_markedMeters, Handle_result, Handle_meters, Handle_w]
  unfold handleBody
  rw [← heq]
  simp only [hparse, hip, hfind, hfound, hfetch, Encode, hmarshal, ResponseWriter.Write, hwrite,
    if_false, ne_eq, not_true_eq_false]
  refine ⟨by simp, by simp [ResponseWriter.HeaderSet], by simp [writtenBytes],
    by simp [ResponseWriter.HeaderSet, ResponseWriter.HeaderGet, mapIndex, List.lookup],
    by simp [ResponseWriter.HeaderSet], by simp [Registry.Mark], ?_, by simp [markedMeters]⟩
  intro n hn
  simp [Registry.Mark, hn]

/-- The served path at a sample: the caller permitted "billing-reader" asks for it
and the provider answers. -/
theorem Handle_success_witness :
    ((handlerWith (.ok "billing-reader") (.ok sampleCredentials)).Handle sampleEnv liveContext
        freshWriter (requestFor "billing-reader") emptyRegistry).result = .returned StatusOK none
    ∧ ((handlerWith (.ok "billing-reader") (.ok sampleCredentials)).Handle sampleEnv liveContext
        freshWriter (requestFor "billing-reader") emptyRegistry).w.body
      = freshWriter.body ++ "\x7b\"AccessKeyId\":\"AKIA\"\x7d\n" :=
  ⟨(Handle_success (handlerWith (.ok "billing-reader") (.ok sampleCredentials)) sampleEnv
      liveContext freshWriter (requestFor "billing-reader") emptyRegistry "10.0.0.5"
      "billing-reader" sampleCredentials "\x7b\"AccessKeyId\":\"AKIA\"\x7d\n"
      rfl rfl rfl (by decide) (by decide) rfl (congrArg Except.ok (by decide)) rfl).1,
   (Handle_success (handlerWith (.ok "billing-reader") (.ok sampleCredentials)) sampleEnv
      liveContext freshWriter (requestFor "billing-reader") emptyRegistry "10.0.0.5"
      "billing-reader" sampleCredentials "\x7b\"AccessKeyId\":\"AKIA\"\x7d\n"
      rfl rfl rfl (by decide) (by decide) rfl (congrArg Except.ok (by decide)) rfl).2.1⟩

/-- C7: at a served request on a fresh writer the handler returns (200, nil), but
the response is committed by the body write, before Content-Type is set: the
response carries the sniffed type and not application/json, which only the
header map shows afterwards. -/
theorem Handle_success_response_lacks_json_content_type :
    ((handlerWith (.ok "billing-reader") (.ok sampleCredentials)).Handle sampleEnv liveContext
        freshWriter (requestFor "billing-reader") emptyRegistry).result = .returned StatusOK none
    ∧ ((handlerWith (.ok "billing-reader") (.ok sampleCredentials)).Handle sampleEnv liveContext
        freshWriter (requestFor "billing-reader") emptyRegistry).w.sent
      = some [("Content-Type", "text/plain; charset=utf-8")]
    ∧ ((handlerWith (.ok "billing-reader") (.ok sampleCredentials)).Handle sampleEnv liveContext
        freshWriter (requestFor "billing-reader") emptyRegistry).w.SentHeader "Content-Type"
      ≠ "application/json"
    ∧ ((handlerWith (.ok "billing-reader") (.ok sampleCredentials)).Handle sampleEnv liveContext
        freshWriter (requestFor "billing-reader") emptyRegistry).w.HeaderGet "Content-Type"
      = "application/json" := by
  decide

/-! ## Lookup failure -/

/-- C8, as stated, fails: no meter is named "lookupError".  At a failed lookup the
count under that name stays as it was; the meter that goes up is registered as
"credentialsHandler.findRoleError". -/
theorem Handle_lookup_error_leaves_lookupError_count :
    ((handlerWith (.error (.other "context deadline exceeded")) (.ok sampleCredentials)).Handle
        sampleEnv liveContext freshWriter (requestFor "billing-reader") emptyRegistry).registry.meters
        "lookupError" = emptyRegistry.meters "lookupError"
    ∧ ((handlerWith (.error (.other "context deadline exceeded")) (.ok sampleCredentials)).Handle
        sampleEnv liveContext freshWriter (requestFor "billing-reader") emptyRegistry).registry.meters
        "lookupError" ≠ emptyRegistry.meters "lookupError" + 1
    ∧ ((handlerWith (.error (.other "context deadline exceeded")) (.ok sampleCredentials)).Handle
        sampleEnv liveContext freshWriter (requestFor "billing-reader") emptyRegistry).registry.meters
        "credentialsHandler.findRoleError"
      = emptyRegistry.meters "credentialsHandler.findRoleError" + 1 := by
  decide

/-- C8 (amended): when the role lookup returns an error, then for every requested
role the handler returns 500 with a non-nil error; the meter named
"credentialsHandler.findRoleError" goes up by exactly 1 and every other meter is
unchanged; the response writer is left as it was and credentials are not
retrieved. -/
theorem Handle_lookup_error_is_500 (c : credentialsHandler) (env : Env) (ctx : Context)
    (w : ResponseWriter) (req : Request) (reg : Registry) (ip : String) (err : GoError)
    (hparse : req.ParseForm = none) (hip : c.clientIP req = .ok ip)
    (hfind : c.roleFinder ctx ip = .error err) :
    (c.Handle env ctx w req reg).result
        = .returned StatusInternalServerError
            (some (Errorf ("error finding pod for ip " ++ ip ++ ": " ++ err.Error)))
    ∧ (c.Handle env ctx w req reg).registry.meters "credentialsHandler.findRoleError"
        = reg.meters "credentialsHandler.findRoleError" + 1
    ∧ (∀ n, n ≠ "credentialsHandler.findRoleError" →
        (c.Handle env ctx w req reg).registry.meters n = reg.meters n)
    ∧ markedMeters (c.Handle env ctx w req reg).trace = ["credentialsHandler.findRoleError"]
    ∧ (c.Handle env ctx w req reg).w = w
    ∧ writtenBytes (c.Handle env ctx w req reg).trace = []
    ∧ fetchedRoles (c.Handle env ctx w req reg).trace = [] := by
  rw [Handle_writtenBytes, Handle_fetchedRoles, Handle_markedMeters, Handle_result, Handle_meters,
    Handle_w]
  unfold handleBody
  simp only [hparse, hip, hfind]
  refine ⟨by simp, by simp [Registry.Mark], ?_, by simp [markedMeters], by simp,
    by simp [writtenBytes], by simp [fetchedRoles]⟩
  intro n hn
  simp [Registry.Mark, hn]

/-- Witness for C8 (amended): the lookup times out for a caller who requested no role. -/
theorem Handle_lookup_error_is_500_witness :
    ((handlerWith (.error (.other "context deadline exceeded")) (.ok sampleCredentials)).Handle
        sampleEnv liveContext freshWriter (requestFor "") emptyRegistry).result
      = .returned StatusInternalServerError
          (some (Errorf ("error finding pod for ip " ++ "10.0.0.5" ++ ": "
            ++ (GoError.other "context deadline exceeded").Error))) :=
  (Handle_lookup_error_is_500
    (handlerWith (.error (.other "context deadline exceeded")) (.ok sampleCredentials))
    sampleEnv liveContext freshWriter (requestFor "") emptyRegistry "10.0.0.5"
    (.other "context deadline exceeded") rfl rfl rfl).1

/-! ## Meters -/

/-- The body marks no meter and leaves the registry alone, or marks exactly one of
the three meters, once. -/
theorem handleBody_marks (env : Env) (c : credentialsHandler) (ctx : Context)
    (w : ResponseWriter) (req : Request) (reg : Registry) :
    (markedMeters (handleBody env c ctx w req reg).trace = []
        ∧ (handleBody env c ctx w req reg).registry = reg)
    ∨ ∃ name, name ∈ meterNames
        ∧ markedMeters (handleBody env c ctx w req reg).trace = [name]
        ∧ (handleBody env c ctx w req reg).registry = reg.Mark name := by
  unfold handleBody
  cases hparse : req.ParseForm with
  | some err => simp [markedMeters]
  | none =>
  cases hip : c.clientIP req with
  | error err => simp [markedMeters]
  | ok ip =>
  cases hfind : c.roleFinder ctx ip with
  | error err => simp [hfind, markedMeters, meterNames]
  | ok found =>
  simp only [hfind]
  by_cases h1 : found = ""
  · simp [h1, markedMeters, meterNames]
  · by_cases h2 : mapIndex req.Vars "role" = ""
    · simp [h1, h2, markedMeters]
    · by_cases h3 : found = mapIndex req.Vars "role"
      · rw [← h3]
        simp only [h1, if_false, ne_eq, not_true_eq_false]
        cases hc : c.credentialsProvider ctx found with
        | error e => cases hctx : ctx.Err <;> simp [markedMeters]
        | ok creds =>
          cases hm : env.jsonMarshal creds with
          | error e => simp [Encode, hm, markedMeters]
          | ok b =>
            cases hw : (w.Write b).2 <;>
              simp [Encode, hm, hw, markedMeters, markedMeters_append, meterNames]
      · simp [h1, h2, h3, markedMeters]

/-- Marking one of the three meters changes that meter and no other. -/
theorem changedMeters_Mark (reg : Registry) (name : String) (h : name ∈ meterNames) :
    changedMeters reg (reg.Mark name) = [name] := by
  simp only [meterNames, List.mem_cons, List.mem_singleton, List.mem_nil_iff, or_false] at h
  rcases h with h | h | h <;> subst h <;>
    simp [changedMeters, meterNames, Registry.Mark, List.filter]

theorem changedMeters_self (reg : Registry) : changedMeters reg reg = [] := by
  simp [changedMeters]

/-- C9, as stated, fails: a request that names no role, from a caller whose
permitted role is "billing-reader", is answered 400 and none of the three
meters moves. -/
theorem Handle_bad_request_marks_no_meter :
    ((handlerWith (.ok "billing-reader") (.ok sampleCredentials)).Handle sampleEnv liveContext
        freshWriter (requestFor "") emptyRegistry).result
      = .returned StatusBadRequest (some (Errorf "no role specified"))
    ∧ changedMeters emptyRegistry ((handlerWith (.ok "billing-reader")
        (.ok sampleCredentials)).Handle sampleEnv liveContext freshWriter (requestFor "")
        emptyRegistry).registry = []
    ∧ (changedMeters emptyRegistry ((handlerWith (.ok "billing-reader")
        (.ok sampleCredentials)).Handle sampleEnv liveContext freshWriter (requestFor "")
        emptyRegistry).registry).length ≠ 1
    ∧ markedMeters ((handlerWith (.ok "billing-reader") (.ok sampleCredentials)).Handle sampleEnv
        liveContext freshWriter (requestFor "") emptyRegistry).trace = [] := by
  decide

/-- C9 (amended): one invocation marks at most one meter, it is one of the three,
and it goes up by exactly 1; every meter ends at its old count plus the number
of times it was marked, so at most one of the three counts changes. -/
theorem Handle_marks_at_most_one_meter (c : credentialsHandler) (env : Env) (ctx : Context)
    (w : ResponseWriter) (req : Request) (reg : Registry) :
    (markedMeters (c.Handle env ctx w req reg).trace).length ≤ 1
    ∧ (∀ n, n ∈ markedMeters (c.Handle env ctx w req reg).trace → n ∈ meterNames)
    ∧ (∀ n, (c.Handle env ctx w req reg).registry.meters n
        = reg.meters n + (markedMeters (c.Handle env ctx w req reg).trace).count n)
    ∧ changedMeters reg (c.Handle env ctx w req reg).registry
        = markedMeters (c.Handle env ctx w req reg).trace := by
  have hreg : changedMeters reg (c.Handle env ctx w req reg).registry
      = changedMeters reg (handleBody env c ctx w req reg).registry := rfl
  rw [hreg, Handle_markedMeters, Handle_meters]
  rcases handleBody_marks env c ctx w req reg with ⟨hm, hr⟩ | ⟨name, hname, hm, hr⟩
  · rw [hm, hr]
    simp [changedMeters_self]
  · rw [hm, hr, changedMeters_Mark reg name hname]
    refine ⟨by simp, by simpa using hname, ?_, rfl⟩
    intro n
    by_cases hn : n = name
    · simp [Registry.Mark, hn]
    · have hn2 : ¬ name = n := fun h => hn h.symm
      simp [Registry.Mark, hn, hn2, List.count_cons]

/-! ## Malformed requests -/

/-- C10, as stated, fails: a request whose form does not parse is answered 500,
not 400. -/
theorem Handle_malformed_request_is_not_400 :
    ((handlerWith (.ok "billing-reader") (.ok sampleCredentials)).Handle sampleEnv liveContext
        freshWriter ⟨some (.other "invalid URL escape \"%zz\""), [("role", "billing-reader")]⟩
        emptyRegistry).result
      = .returned StatusInternalServerError (some (.other "invalid URL escape \"%zz\""))
    ∧ ¬ ∃ e, ((handlerWith (.ok "billing-reader") (.ok sampleCredentials)).Handle sampleEnv
        liveContext freshWriter
        ⟨some (.other "invalid URL escape \"%zz\""), [("role", "billing-reader")]⟩
        emptyRegistry).result = .returned StatusBadRequest e := by
  refine ⟨by decide, ?_⟩
  rintro ⟨e, h⟩
  have h2 : ((handlerWith (.ok "billing-reader") (.ok sampleCredentials)).Handle sampleEnv
      liveContext freshWriter
      ⟨some (.other "invalid URL escape \"%zz\""), [("role", "billing-reader")]⟩
      emptyRegistry).result
      = .returned StatusInternalServerError (some (.other "invalid URL escape \"%zz\"")) := by
    decide
  rw [h2] at h
  cases h

/-- C10 (amended): a request whose form does not parse is answered with status 500
and the parse error itself; no identity is resolved, no meter is marked and the
response writer is left as it was. -/
theorem Handle_malformed_request_is_500 (c : credentialsHandler) (env : Env) (ctx : Context)
    (w : ResponseWriter) (req : Request) (reg : Registry) (err : GoError)
    (hparse : req.ParseForm = some err) :
    (c.Handle env ctx w req reg).result = .returned StatusInternalServerError (some err)
    ∧ (c.Handle env ctx w req reg).trace = [.parseForm, .updateSince "credentialsHandler"]
    ∧ (c.Handle env ctx w req reg).registry.meters = reg.meters
    ∧ (c.Handle env ctx w req reg).w = w := by
  simp [credentialsHandler.Handle, handleBody, hparse, Registry.UpdateSince]

/-- Witness for C10 (amended): a query string with a bad escape. -/
theorem Handle_malformed_request_is_500_witness :
    ((handlerWith (.ok "billing-reader") (.ok sampleCredentials)).Handle sampleEnv liveContext
        freshWriter ⟨some (.other "invalid URL escape \"%zz\""), [("role", "billing-reader")]⟩
        emptyRegistry).result
      = .returned StatusInternalServerError (some (.other "invalid URL escape \"%zz\"")) :=
  (Handle_malformed_request_is_500 (handlerWith (.ok "billing-reader") (.ok sampleCredentials))
    sampleEnv liveContext freshWriter
    ⟨some (.other "invalid URL escape \"%zz\""), [("role", "billing-reader")]⟩
    emptyRegistry (.other "invalid URL escape \"%zz\"") rfl).1

/-! ## Exit paths -/

/-- Every run of the body leaves by one of eleven exits, listed in source order
with the outcome of each. -/
theorem handleBody_paths (env : Env) (c : credentialsHandler) (ctx : Context)
    (w : ResponseWriter) (req : Request) (reg : Registry) :
    (∃ err, handleBody env c ctx w req reg
        = ⟨.returned StatusInternalServerError (some err), w, reg, [.parseForm]⟩)
    ∨ (∃ err, handleBody env c ctx w req reg
        = ⟨.returned StatusInternalServerError (some err), w, reg, [.parseForm, .clientIP]⟩)
    ∨ (∃ (ip : String) (err : GoError), handleBody env c ctx w req reg
        = ⟨.returned StatusInternalServerError
            (some (Errorf ("error finding pod for ip " ++ ip ++ ": " ++ err.Error))),
          w, reg.Mark "credentialsHandler.findRoleError",
          [.parseForm, .clientIP, .findRole ip, .mark "credentialsHandler.findRoleError"]⟩)
    ∨ (∃ ip, handleBody env c ctx w req reg
        = ⟨.returned StatusNotFound (some .EmptyRoleError), w,
          reg.Mark "credentialsHandler.emptyRole",
          [.parseForm, .clientIP, .findRole ip, .mark "credentialsHandler.emptyRole"]⟩)
    ∨ (∃ ip, handleBody env c ctx w req reg
        = ⟨.returned StatusBadRequest (some (Errorf "no role specified")), w, reg,
          [.parseForm, .clientIP, .findRole ip]⟩)
    ∨ (∃ ip found, handleBody env c ctx w req reg
        = ⟨.returned StatusForbidden
            (some (Errorf ("unable to assume role " ++ mapIndex req.Vars "role"
              ++ ", role on pod specified is " ++ found))),
          w, reg, [.parseForm, .clientIP, .findRole ip]⟩)
    ∨ (∃ ip role, handleBody env c ctx w req reg
        = ⟨.panicked, w, reg, [.parseForm, .clientIP, .findRole ip, .credentialsForRole role]⟩)
    ∨ (∃ (ip role : String) (ctxErr : GoError), ctx.Err = some ctxErr ∧ handleBody env c ctx w req reg
        = ⟨.returned StatusInternalServerError
            (some (Errorf ("unexpected error: " ++ ctxErr.Error))),
          w, reg, [.parseForm, .clientIP, .findRole ip, .credentialsForRole role]⟩)
    ∨ (∃ (ip role : String) (err : GoError), handleBody env c ctx w req reg
        = ⟨.returned StatusInternalServerError
            (some (Errorf ("error encoding credentials: " ++ err.Error))),
          w, reg, [.parseForm, .clientIP, .findRole ip, .credentialsForRole role, .encode]⟩)
    ∨ (∃ (ip role b : String) (n : Nat) (err : GoError), w.fault = some (n, err) ∧ handleBody env c ctx w req reg
        = ⟨.returned StatusInternalServerError
            (some (Errorf ("error encoding credentials: " ++ err.Error))),
          { w with body := w.body ++ String.mk (b.data.take n), sent := some (w.commit b) }, reg,
          [.parseForm, .clientIP, .findRole ip, .credentialsForRole role, .encode, .write b]⟩)
    ∨ (∃ ip role b, w.fault = none ∧ handleBody env c ctx w req reg
        = ⟨.returned StatusOK none,
          ({ w with body := w.body ++ b, sent := some (w.commit b) } :
            ResponseWriter).HeaderSet "Content-Type" "application/json",
          reg.Mark "credentialsHandler.success",
          [.parseForm, .clientIP, .findRole ip, .credentialsForRole role, .encode, .write b,
            .setHeader "Content-Type" "application/json", .mark "credentialsHandler.success"]⟩) := by
  unfold handleBody
  cases hparse : req.ParseForm with
  | some err => exact Or.inl ⟨err, rfl⟩
  | none =>
  cases hip : c.clientIP req with
  | error err => exact Or.inr (Or.inl ⟨err, rfl⟩)
  | ok ip =>
  cases hfind : c.roleFinder ctx ip with
  | error err =>
    simp only [hfind]
    exact Or.inr (Or.inr (Or.inl ⟨ip, err, rfl⟩))
  | ok found =>
  simp only [hfind]
  by_cases h1 : found = ""
  · simp only [h1, if_true]
    exact Or.inr (Or.inr (Or.inr (Or.inl ⟨ip, rfl⟩)))
  · by_cases h2 : mapIndex req.Vars "role" = ""
    · simp only [h1, h2, if_true, if_false]
      exact Or.inr (Or.inr (Or.inr (Or.inr (Or.inl ⟨ip, rfl⟩))))
    · by_cases h3 : found = mapIndex req.Vars "role"
      · rw [← h3]
        simp only [h1, if_false, ne_eq, not_true_eq_false]
        cases hc : c.credentialsProvider ctx found with
        | error e =>
          cases hctx : ctx.Err with
          | none =>
            exact Or.inr (Or.inr (Or.inr (Or.inr (Or.inr (Or.inr (Or.inl ⟨ip, found, rfl⟩))))))
          | some ctxErr =>
            exact Or.inr (Or.inr (Or.inr (Or.inr (Or.inr (Or.inr (Or.inr
              (Or.inl ⟨ip, found, ctxErr, rfl, rfl⟩)))))))
        | ok creds =>
          cases hm : env.jsonMarshal creds with
          | error e =>
            simp only [Encode, hm]
            exact Or.inr (Or.inr (Or.inr (Or.inr (Or.inr (Or.inr (Or.inr (Or.inr
              (Or.inl ⟨ip, found, e, rfl⟩))))))))
          | ok b =>
            cases hf : w.fault with
            | none =>
              simp only [Encode, hm, ResponseWriter.Write, hf]
              exact Or.inr (Or.inr (Or.inr (Or.inr (Or.inr (Or.inr (Or.inr (Or.inr
                (Or.inr (Or.inr ⟨ip, found, b, trivial, rfl⟩)))))))))
            | some ne =>
              obtain ⟨n, e⟩ := ne
              simp only [Encode, hm, ResponseWriter.Write, hf]
              exact Or.inr (Or.inr (Or.inr (Or.inr (Or.inr (Or.inr (Or.inr (Or.inr
                (Or.inr (Or.inl ⟨ip, found, b, n, e, rfl, rfl⟩)))))))))
      · simp only [h1, h2, h3, if_false, ne_eq, not_false_eq_true, if_true]
        exact Or.inr (Or.inr (Or.inr (Or.inr (Or.inr (Or.inl ⟨ip, found, rfl⟩)))))

/-! ## What a failed invocation leaves in the response -/

/-- C11, as stated, fails: when the writer breaks while the encoder hands it the
credential bytes, the handler returns 500 and the body already holds the first
five bytes of the credentials. -/
theorem Handle_write_failure_leaves_bytes :
    ((handlerWith (.ok "billing-reader") (.ok sampleCredentials)).Handle sampleEnv liveContext
        brokenWriter (requestFor "billing-reader") emptyRegistry).result
      = .returned StatusInternalServerError
          (some (Errorf "error encoding credentials: write: broken pipe"))
    ∧ ((handlerWith (.ok "billing-reader") (.ok sampleCredentials)).Handle sampleEnv liveContext
        brokenWriter (requestFor "billing-reader") emptyRegistry).w.body = "\x7b\"Acc"
    ∧ ((handlerWith (.ok "billing-reader") (.ok sampleCredentials)).Handle sampleEnv liveContext
        brokenWriter (requestFor "billing-reader") emptyRegistry).w.body ≠ brokenWriter.body := by
  decide

/-- C11 (amended): when the outcome is not (200, nil) the handler sets no header,
and it leaves the body as it was unless the failure is the writer refusing the
credential bytes: then the body has grown by the leading bytes the writer took
before failing, and the response is committed with the header block it had on
entry.  In particular a writer that cannot fail, and an invocation that
hands no bytes to the writer, end with the writer exactly as on entry. -/
theorem Handle_failure_writes_no_header (c : credentialsHandler) (env : Env) (ctx : Context)
    (w : ResponseWriter) (req : Request) (reg : Registry)
    (h : (c.Handle env ctx w req reg).result ≠ .returned StatusOK none) :
    (c.Handle env ctx w req reg).w.header = w.header
    ∧ (w.fault = none → (c.Handle env ctx w req reg).w = w)
    ∧ (writtenBytes (c.Handle env ctx w req reg).trace = [] → (c.Handle env ctx w req reg).w = w)
    ∧ ((c.Handle env ctx w req reg).w = w
        ∨ ∃ b n e, w.fault = some (n, e)
            ∧ writtenBytes (c.Handle env ctx w req reg).trace = [b]
            ∧ (c.Handle env ctx w req reg).w
                = { w with body := w.body ++ String.mk (b.data.take n),
                           sent := some (w.commit b) }) := by
  rw [Handle_writtenBytes, Handle_w]
  rw [Handle_result] at h
  obtain ⟨_, hb⟩ | ⟨_, hb⟩ | ⟨_, _, hb⟩ | ⟨_, hb⟩ | ⟨_, hb⟩ | ⟨_, _, hb⟩ | ⟨_, _, hb⟩
    | ⟨_, _, _, _, hb⟩ | ⟨_, _, _, hb⟩ | ⟨_, _, b, n, e, hf, hb⟩ | ⟨_, _, _, hf, hb⟩ :=
    handleBody_paths env c ctx w req reg
  case inr.inr.inr.inr.inr.inr.inr.inr.inr.inr =>
    rw [hb] at h
    exact absurd rfl h
  case inr.inr.inr.inr.inr.inr.inr.inr.inr.inl =>
    rw [hb]
    refine ⟨rfl, ?_, ?_, Or.inr ⟨b, n, e, hf, by simp [writtenBytes], rfl⟩⟩
    · intro hnone
      rw [hnone] at hf
      cases hf
    · intro hnil
      simp [writtenBytes] at hnil
  all_goals
    rw [hb]
    exact ⟨rfl, fun _ => rfl, fun _ => rfl, Or.inl rfl⟩

/-- Witness for C11 (amended): the broken writer ends with its header map as it
was. -/
theorem Handle_failure_writes_no_header_witness :
    ((handlerWith (.ok "billing-reader") (.ok sampleCredentials)).Handle sampleEnv liveContext
        brokenWriter (requestFor "billing-reader") emptyRegistry).w.header = brokenWriter.header :=
  (Handle_failure_writes_no_header (handlerWith (.ok "billing-reader") (.ok sampleCredentials))
    sampleEnv liveContext brokenWriter (requestFor "billing-reader") emptyRegistry
    (by decide)).1

/-! ## Identity resolution failure -/

/-- C12: when identity resolution fails the handler returns 500 with the
resolver's error itself; it has only parsed the form and called the resolver, so
neither the role lookup nor credential retrieval is invoked, no meter is marked
or changed, and the response writer is left as it was. -/
theorem Handle_identity_failure_is_500 (c : credentialsHandler) (env : Env) (ctx : Context)
    (w : ResponseWriter) (req : Request) (reg : Registry) (err : GoError)
    (hparse : req.ParseForm = none) (hip : c.clientIP req = .error err) :
    (c.Handle env ctx w req reg).result = .returned StatusInternalServerError (some err)
    ∧ (c.Handle env ctx w req reg).trace
        = [.parseForm, .clientIP, .updateSince "credentialsHandler"]
    ∧ fetchedRoles (c.Handle env ctx w req reg).trace = []
    ∧ markedMeters (c.Handle env ctx w req reg).trace = []
    ∧ (c.Handle env ctx w req reg).registry.meters = reg.meters
    ∧ (c.Handle env ctx w req reg).w = w := by
  simp [credentialsHandler.Handle, handleBody, hparse, hip, Registry.UpdateSince, fetchedRoles,
    markedMeters]

/-- Witness for C12: a resolver that cannot tell the caller's address. -/
theorem Handle_identity_failure_is_500_witness :
    ((credentialsHandler.mk (fun _ _ => .ok "billing-reader") (fun _ _ => .ok sampleCredentials)
        (fun _ => .error (.other "incorrect format, expecting host:port"))).Handle sampleEnv
        liveContext freshWriter (requestFor "billing-reader") emptyRegistry).result
      = .returned StatusInternalServerError (some (.other "incorrect format, expecting host:port")) :=
  (Handle_identity_failure_is_500
    (credentialsHandler.mk (fun _ _ => .ok "billing-reader") (fun _ _ => .ok sampleCredentials)
      (fun _ => .error (.other "incorrect format, expecting host:port")))
    sampleEnv liveContext freshWriter (requestFor "billing-reader") emptyRegistry
    (.other "incorrect format, expecting host:port") rfl rfl).1

/-! ## The closed set of outcomes -/

/-- C13: whenever the handler returns `(status, err)`, the status is one of 200,
400, 403, 404 and 500, and the error is nil exactly when the status is 200. -/
theorem Handle_status_closed_set (c : credentialsHandler) (env : Env) (ctx : Context)
    (w : ResponseWriter) (req : Request) (reg : Registry) (status : Nat) (err : Option GoError)
    (h : (c.Handle env ctx w req reg).result = .returned status err) :
    status ∈ [StatusOK, StatusBadRequest, StatusForbidden, StatusNotFound,
        StatusInternalServerError]
    ∧ (err = none ↔ status = StatusOK) := by
  rw [Handle_result] at h
  obtain ⟨_, hb⟩ | ⟨_, hb⟩ | ⟨_, _, hb⟩ | ⟨_, hb⟩ | ⟨_, hb⟩ | ⟨_, _, hb⟩ | ⟨_, _, hb⟩
    | ⟨_, _, _, _, hb⟩ | ⟨_, _, _, hb⟩ | ⟨_, _, _, _, _, _, hb⟩ | ⟨_, _, _, _, hb⟩ :=
    handleBody_paths env c ctx w req reg
  all_goals
    rw [hb] at h
    cases h
  all_goals
    simp [StatusOK, StatusBadRequest, StatusForbidden, StatusNotFound, StatusInternalServerError]

/-- Witness for C13: the served request returns 200 with a nil error. -/
theorem Handle_status_closed_set_witness :
    StatusOK ∈ [StatusOK, StatusBadRequest, StatusForbidden, StatusNotFound,
        StatusInternalServerError]
    ∧ ((none : Option GoError) = none ↔ StatusOK = StatusOK) :=
  Handle_status_closed_set (handlerWith (.ok "billing-reader") (.ok sampleCredentials)) sampleEnv
    liveContext freshWriter (requestFor "billing-reader") emptyRegistry StatusOK none
    (by decide)

/-! ## The timer -/

/-- The body never touches a timer. -/
theorem handleBody_timers (env : Env) (c : credentialsHandler) (ctx : Context)
    (w : ResponseWriter) (req : Request) (reg : Registry) :
    (handleBody env c ctx w req reg).registry.timers = reg.timers := by
  obtain ⟨_, hb⟩ | ⟨_, hb⟩ | ⟨_, _, hb⟩ | ⟨_, hb⟩ | ⟨_, hb⟩ | ⟨_, _, hb⟩ | ⟨_, _, hb⟩
    | ⟨_, _, _, _, hb⟩ | ⟨_, _, _, hb⟩ | ⟨_, _, _, _, _, _, hb⟩ | ⟨_, _, _, _, hb⟩ :=
    handleBody_paths env c ctx w req reg
  all_goals
    exact (congrArg (fun o => o.registry.timers) hb).trans rfl

/-- The body itself records no duration. -/
theorem handleBody_no_updateSince (env : Env) (c : credentialsHandler) (ctx : Context)
    (w : ResponseWriter) (req : Request) (reg : Registry) (n : String) :
    Event.updateSince n ∉ (handleBody env c ctx w req reg).trace := by
  obtain ⟨_, hb⟩ | ⟨_, hb⟩ | ⟨_, _, hb⟩ | ⟨_, hb⟩ | ⟨_, hb⟩ | ⟨_, _, hb⟩ | ⟨_, _, hb⟩
    | ⟨_, _, _, _, hb⟩ | ⟨_, _, _, hb⟩ | ⟨_, _, _, _, _, _, hb⟩ | ⟨_, _, _, _, hb⟩ :=
    handleBody_paths env c ctx w req reg
  all_goals
    rw [hb]
    simp

/-- C14: every invocation, whichever exit it takes (an abort included), records
exactly one sample on the credentialsHandler timer, the time elapsed since entry;
the record is the last thing the invocation does and no other timer changes. -/
theorem Handle_records_one_duration (c : credentialsHandler) (env : Env) (ctx : Context)
    (w : ResponseWriter) (req : Request) (reg : Registry) :
    (c.Handle env ctx w req reg).registry.timers "credentialsHandler"
        = reg.timers "credentialsHandler" ++ [env.endTime - env.startTime]
    ∧ (∀ n, n ≠ "credentialsHandler" →
        (c.Handle env ctx w req reg).registry.timers n = reg.timers n)
    ∧ (c.Handle env ctx w req reg).trace
        = (handleBody env c ctx w req reg).trace ++ [.updateSince "credentialsHandler"]
    ∧ (∀ n, Event.updateSince n ∉ (handleBody env c ctx w req reg).trace) := by
  refine ⟨?_, ?_, rfl, handleBody_no_updateSince env c ctx w req reg⟩
  · simp [credentialsHandler.Handle, Registry.UpdateSince, handleBody_timers]
  · intro n hn
    simp [credentialsHandler.Handle, Registry.UpdateSince, hn, handleBody_timers]

/-! ## Order of the response effects -/

/-- C15: an invocation that returns (200, nil) has done exactly this, in this
order: parse, resolve, look up, retrieve, encode, write the body bytes, set
Content-Type, mark success, record the duration.  The header is set after the
body write and nowhere else. -/
theorem Handle_success_sets_header_after_write (c : credentialsHandler) (env : Env)
    (ctx : Context) (w : ResponseWriter) (req : Request) (reg : Registry)
    (h : (c.Handle env ctx w req reg).result = .returned StatusOK none) :
    ∃ ip role b, (c.Handle env ctx w req reg).trace
      = [.parseForm, .clientIP, .findRole ip, .credentialsForRole role, .encode, .write b,
          .setHeader "Content-Type" "application/json", .mark "credentialsHandler.success",
          .updateSince "credentialsHandler"] := by
  rw [Handle_result] at h
  obtain ⟨_, hb⟩ | ⟨_, hb⟩ | ⟨_, _, hb⟩ | ⟨_, hb⟩ | ⟨_, hb⟩ | ⟨_, _, hb⟩ | ⟨_, _, hb⟩
    | ⟨_, _, _, _, hb⟩ | ⟨_, _, _, hb⟩ | ⟨_, _, _, _, _, _, hb⟩ | ⟨ip, role, b, _, hb⟩ :=
    handleBody_paths env c ctx w req reg
  case inr.inr.inr.inr.inr.inr.inr.inr.inr.inr =>
    exact ⟨ip, role, b, by simp [credentialsHandler.Handle, hb]⟩
  all_goals
    rw [hb] at h
    simp [StatusOK, StatusBadRequest, StatusForbidden, StatusNotFound,
      StatusInternalServerError] at h

/-- Witness for C15: the served request writes the body, then sets the header. -/
theorem Handle_success_sets_header_after_write_witness :
    ∃ ip role b, ((handlerWith (.ok "billing-reader") (.ok sampleCredentials)).Handle sampleEnv
        liveContext freshWriter (requestFor "billing-reader") emptyRegistry).trace
      = [.parseForm, .clientIP, .findRole ip, .credentialsForRole role, .encode, .write b,
          .setHeader "Content-Type" "application/json", .mark "credentialsHandler.success",
          .updateSince "credentialsHandler"] :=
  Handle_success_sets_header_after_write
    (handlerWith (.ok "billing-reader") (.ok sampleCredentials)) sampleEnv liveContext
    freshWriter (requestFor "billing-reader") emptyRegistry (by decide)

/-! ## The text of the retrieval failure -/

/-- C16: at an authorized request whose credential retrieval fails while the
context is done, the returned error is "unexpected error: " followed by the
text of the context's error; two runs that differ only in the error retrieval
failed with return the same result. -/
theorem Handle_fetch_error_text_ignores_cause (c1 c2 : credentialsHandler) (env : Env)
    (ctx : Context) (w : ResponseWriter) (req : Request) (reg : Registry)
    (ip1 ip2 found : String) (e1 e2 ctxErr : GoError)
    (hparse : req.ParseForm = none)
    (hip1 : c1.clientIP req = .ok ip1) (hip2 : c2.clientIP req = .ok ip2)
    (hfind1 : c1.roleFinder ctx ip1 = .ok found) (hfind2 : c2.roleFinder ctx ip2 = .ok found)
    (hfound : found ≠ "") (heq : found = mapIndex req.Vars "role")
    (hfetch1 : c1.credentialsProvider ctx found = .error e1)
    (hfetch2 : c2.credentialsProvider ctx found = .error e2)
    (hctx : ctx.Err = some ctxErr) :
    (c1.Handle env ctx w req reg).result
        = .returned StatusInternalServerError
            (some (Errorf ("unexpected error: " ++ ctxErr.Error)))
    ∧ (c2.Handle env ctx w req reg).result = (c1.Handle env ctx w req reg).result := by
  have r1 := (Handle_fetch_error_done_context c1 env ctx w req reg ip1 found e1 ctxErr hparse
    hip1 hfind1 hfound heq hfetch1 hctx).1
  have r2 := (Handle_fetch_error_done_context c2 env ctx w req reg ip2 found e2 ctxErr hparse
    hip2 hfind2 hfound heq hfetch2 hctx).1
  exact ⟨r1, r2.trans r1.symm⟩

/-- Witness for C16: an expired token and a throttled call are reported alike
under a cancelled context. -/
theorem Handle_fetch_error_text_ignores_cause_witness :
    ((handlerWith (.ok "admin") (.error (.other "ExpiredToken"))).Handle sampleEnv
        cancelledContext freshWriter (requestFor "admin") emptyRegistry).result
      = .returned StatusInternalServerError
          (some (Errorf ("unexpected error: " ++ (GoError.other "context canceled").Error)))
    ∧ ((handlerWith (.ok "admin") (.error (.other "Throttling: Rate exceeded"))).Handle sampleEnv
        cancelledContext freshWriter (requestFor "admin") emptyRegistry).result
      = ((handlerWith (.ok "admin") (.error (.other "ExpiredToken"))).Handle sampleEnv
        cancelledContext freshWriter (requestFor "admin") emptyRegistry).result :=
  Handle_fetch_error_text_ignores_cause
    (handlerWith (.ok "admin") (.error (.other "ExpiredToken")))
    (handlerWith (.ok "admin") (.error (.other "Throttling: Rate exceeded")))
    sampleEnv cancelledContext freshWriter (requestFor "admin") emptyRegistry
    "10.0.0.5" "10.0.0.5" "admin" (.other "ExpiredToken") (.other "Throttling: Rate exceeded")
    (.other "context canceled") rfl rfl rfl rfl rfl (by decide) (by decide) rfl rfl rfl

/-! ## Meter and status -/

/-- Marking a meter adds one to its count and nothing to any other. -/
theorem Mark_meters (reg : Registry) (name n : String) :
    (reg.Mark name).meters n = reg.meters n + [name].count n := by
  by_cases hn : n = name
  · simp [Registry.Mark, hn]
  · have hn2 : ¬ name = n := fun h => hn h.symm
    simp [Registry.Mark, hn, hn2, List.count_cons]

/-- C17: an invocation marks no meter or exactly one of the three, once, and the
meter tells the result: success goes with (200, nil), emptyRole with 404 and the
sentinel, findRoleError with 500; every meter ends at its old count plus the
number of times it was marked; a 400 or a 403 result marks no meter. -/
theorem Handle_marked_meter_determines_status (c : credentialsHandler) (env : Env)
    (ctx : Context) (w : ResponseWriter) (req : Request) (reg : Registry) :
    (markedMeters (c.Handle env ctx w req reg).trace = []
      ∨ (markedMeters (c.Handle env ctx w req reg).trace = ["credentialsHandler.success"]
          ∧ (c.Handle env ctx w req reg).result = .returned StatusOK none)
      ∨ (markedMeters (c.Handle env ctx w req reg).trace = ["credentialsHandler.emptyRole"]
          ∧ (c.Handle env ctx w req reg).result
              = .returned StatusNotFound (some .EmptyRoleError))
      ∨ (markedMeters (c.Handle env ctx w req reg).trace = ["credentialsHandler.findRoleError"]
          ∧ ∃ e, (c.Handle env ctx w req reg).result
              = .returned StatusInternalServerError (some e)))
    ∧ (∀ n, (c.Handle env ctx w req reg).registry.meters n
        = reg.meters n + (markedMeters (c.Handle env ctx w req reg).trace).count n)
    ∧ (∀ e, (c.Handle env ctx w req reg).result = .returned StatusBadRequest e
        → markedMeters (c.Handle env ctx w req reg).trace = [])
    ∧ (∀ e, (c.Handle env ctx w req reg).result = .returned StatusForbidden e
        → markedMeters (c.Handle env ctx w req reg).trace = []) := by
  rw [Handle_markedMeters, Handle_result, Handle_meters]
  obtain ⟨_, hb⟩ | ⟨_, hb⟩ | ⟨_, _, hb⟩ | ⟨_, hb⟩ | ⟨_, hb⟩ | ⟨_, _, hb⟩ | ⟨_, _, hb⟩
    | ⟨_, _, _, _, hb⟩ | ⟨_, _, _, hb⟩ | ⟨_, _, _, _, _, _, hb⟩ | ⟨_, _, _, _, hb⟩ :=
    handleBody_paths env c ctx w req reg
  all_goals
    rw [hb]
    simp [markedMeters, Mark_meters, StatusOK, StatusBadRequest, StatusForbidden, StatusNotFound,
      StatusInternalServerError]

end Kiam
